import Mathlib

/-!
Verification development for the BlockByBlockAI/stocktrading decision-and-lifecycle
engine.  The Python modules under `src/` are shallowly embedded: pandas Series become
`List (Option ℚ)` (with `none` playing the role of NaN / a missing value), dict rows
become structures, Python exceptions become `Except String`, and floats become exact
rationals.  Collaborator calls (yfinance fetches, the options-chain provider, analyst
ratings, the pickled scoring model) are passed in as explicit parameters.
-/

namespace StockTrading

/-- Python `int()` applied to a rational: truncation toward zero. -/
def pyInt (x : ℚ) : Int := if 0 ≤ x then ⌊x⌋ else ⌈x⌉

/-- Reading a dict entry that is present but may hold Python `None`
(or a dict key / local that may be missing): `none` raises, modelled as
`Except.error msg`. -/
def pyGet (x : Option ℚ) (msg : String) : Except String ℚ :=
  match x with
  | some v => Except.ok v
  | none => Except.error msg

/-- Pandas `.iloc[0]` on a filtered frame: raises IndexError when the frame is empty. -/
def ilocFirst {α : Type} (rows : List α) : Except String α :=
  match rows with
  | [] => Except.error "IndexError: single positional indexer is out-of-bounds"
  | r :: _ => Except.ok r

/-- One OHLCV bar of the history returned by `get_historical_data`. -/
structure Bar where
  openPrice : ℚ
  highPrice : ℚ
  lowPrice : ℚ
  closePrice : ℚ
  volume : ℚ
deriving DecidableEq

/-- A pandas Series: positionally indexed values, `none` for NaN. -/
abbrev Series := List (Option ℚ)

/-- Mean of a list of rationals (`Series.rolling(...).mean()` on a full window). -/
def listMean (l : List ℚ) : ℚ := l.sum / l.length

/-- Minimum of a nonempty list (0 on the empty list, which never occurs). -/
def listMin : List ℚ → ℚ
  | [] => 0
  | x :: xs => xs.foldl min x

/-- Maximum of a nonempty list (0 on the empty list, which never occurs). -/
def listMax : List ℚ → ℚ
  | [] => 0
  | x :: xs => xs.foldl max x

/-- The window of width `w` ending at position `i`, provided the window is full and
contains no NaN, as in pandas `rolling(w)` with its default `min_periods`. -/
def rollingWindow (w : ℕ) (s : Series) (i : ℕ) : Option (List ℚ) :=
  if w ≤ i + 1 then
    let vals := (s.take (i + 1)).drop (i + 1 - w)
    if vals.all (fun x => x.isSome) then some (vals.filterMap id) else none
  else none

/-- `Series.rolling(w).agg(f)`: apply `f` to each full window, NaN elsewhere. -/
def rollingApply (w : ℕ) (f : List ℚ → ℚ) (s : Series) : Series :=
  (List.range s.length).map (fun i => (rollingWindow w s i).map f)

/-- `Series.diff()`: first entry NaN, then successive differences. -/
def seriesDiff (s : Series) : Series :=
  match s with
  | [] => []
  | _ =>
    none :: (s.zip (s.drop 1)).map (fun p =>
      match p.1, p.2 with
      | some a, some b => some (b - a)
      | _, _ => none)

/-- `modules/technical_analysis.calculate_sma`: rolling mean over `window` bars. -/
def calculate_sma (data : Series) (window : ℕ) : Series :=
  rollingApply window listMean data

/-- `delta.where(delta > 0, 0)` from `calculate_rsi`. -/
def gainPart (d : Series) : Series :=
  d.map (Option.map (fun x => if 0 < x then x else 0))

/-- `(-delta).where(delta < 0, 0)`, i.e. `-delta.where(delta < 0, 0)` applied pointwise. -/
def lossPart (d : Series) : Series :=
  d.map (Option.map (fun x => if x < 0 then -x else 0))

/-- `modules/technical_analysis.calculate_rsi`: rolling-mean gains and losses,
`rs = gain/loss`, `rsi = 100 - 100/(1+rs)`; a zero mean loss gives the float limit 100
(for a positive gain) or NaN. -/
def calculate_rsi (data : Series) (periods : ℕ) : Series :=
  let delta := seriesDiff data
  let gain := rollingApply periods listMean (gainPart delta)
  let loss := rollingApply periods listMean (lossPart delta)
  (gain.zip loss).map (fun p =>
    match p.1, p.2 with
    | some g, some l =>
      if l = 0 then (if g = 0 then none else some 100)
      else some (100 - 100 / (1 + g / l))
    | _, _ => none)

/-- `modules/technical_analysis.calculate_support_resistance`: 20-bar rolling min of
lows and rolling max of highs. -/
def calculate_support_resistance (lows highs : Series) (window : ℕ) : Series × Series :=
  (rollingApply window listMin lows, rollingApply window listMax highs)

/-- `Series.isna().all()`. -/
def isnaAll (s : Series) : Bool := s.all (fun x => x.isNone)

/-- `Series.iloc[-1] if not series.empty else None`. -/
def lastOrNone (s : Series) : Option ℚ :=
  if s.isEmpty then none else s.getLastD none

/-- The signal snapshot dict built by `TradingStrategy.get_technical_signals`.
Fields from `price` to `sma_50` are the keys of the fallback (null) snapshot;
the remaining fields only exist on the full snapshot, so `none` there means the
key is absent from the dict. -/
structure Signals where
  price : Option ℚ
  rsi : Option ℚ
  oversold : Bool
  overbought : Bool
  uptrend : Bool
  support : Option ℚ
  resistance : Option ℚ
  near_support : Bool
  near_resistance : Bool
  sma_20 : Option ℚ
  sma_50 : Option ℚ
  macd : Option ℚ := none
  macd_signal_line : Option ℚ := none
  macd_bullish : Bool := false
  bollinger_upper : Option ℚ := none
  bollinger_lower : Option ℚ := none
  bollinger_width : Option ℚ := none
  below_bollinger : Bool := false
  above_bollinger : Bool := false
  atr : Option ℚ := none
  atr_percent : Option ℚ := none
deriving DecidableEq

/-- The snapshot returned on insufficient data and by the blanket `except` handler
of `get_technical_signals`. -/
def nullSignals : Signals :=
  { price := none, rsi := none, oversold := false, overbought := false,
    uptrend := false, support := none, resistance := none,
    near_support := false, near_resistance := false,
    sma_20 := none, sma_50 := none }

/-- Column lookup on the DataFrame, raising KeyError for an absent column. -/
def dfGet (cols : List (String × Series)) (name : String) : Except String Series :=
  match cols.find? (fun p => p.1 == name) with
  | some p => Except.ok p.2
  | none => Except.error ("KeyError: " ++ name)

/-- Body of `TradingStrategy.get_technical_signals` (the code inside its `try`),
given the history DataFrame from `get_historical_data` (`none` for a failed fetch).
The code assigns only the RSI, SMA_20 and SMA_50 columns before reading the
MACD / Bollinger / ATR columns, and its signals dict also references the unbound
local `rolling_mean`. -/
def gts_body (df? : Option (List Bar)) : Except String Signals :=
  match df? with
  | none => Except.ok nullSignals
  | some h =>
    if h.isEmpty ∨ h.length < 50 then Except.ok nullSignals
    else
      let closeS : Series := h.map (fun b => some b.closePrice)
      let lowS : Series := h.map (fun b => some b.lowPrice)
      let highS : Series := h.map (fun b => some b.highPrice)
      let rsiS := calculate_rsi closeS 14
      if isnaAll rsiS then Except.error "ValueError: RSI calculation failed"
      else
        let sma20S := calculate_sma closeS 20
        let sma50S := calculate_sma closeS 50
        if isnaAll sma20S ∨ isnaAll sma50S then
          Except.error "ValueError: SMA calculation failed"
        else
          let sr := calculate_support_resistance lowS highS 20
          let supportS := sr.1
          let resistanceS := sr.2
          if supportS.isEmpty ∨ resistanceS.isEmpty then
            Except.error "ValueError: Support or Resistance calculation failed"
          else
            let cols : List (String × Series) :=
              [("Open", h.map (fun b => some b.openPrice)),
               ("High", highS), ("Low", lowS), ("Close", closeS),
               ("Volume", h.map (fun b => some b.volume)),
               ("RSI", rsiS), ("SMA_20", sma20S), ("SMA_50", sma50S)]
            let current_price := lastOrNone closeS
            let current_rsi := lastOrNone rsiS
            let sma_20 := lastOrNone sma20S
            let sma_50 := lastOrNone sma50S
            match dfGet cols "MACD" with
            | Except.error e => Except.error e
            | Except.ok _ =>
              match dfGet cols "MACD_signal" with
              | Except.error e => Except.error e
              | Except.ok _ =>
                match dfGet cols "Bollinger_Upper" with
                | Except.error e => Except.error e
                | Except.ok _ =>
                  match dfGet cols "Bollinger_Lower" with
                  | Except.error e => Except.error e
                  | Except.ok _ =>
                    match dfGet cols "ATR" with
                    | Except.error e => Except.error e
                    | Except.ok _ =>
                      if current_price.isNone ∨ current_rsi.isNone ∨
                          sma_20.isNone ∨ sma_50.isNone then
                        Except.error "ValueError: Failed to get current indicator values"
                      else
                        Except.error "NameError: name rolling_mean is not defined"

/-- `TradingStrategy.get_technical_signals`: the `try` body with the blanket
`except` handler that falls back to the null snapshot. -/
def get_technical_signals (df? : Option (List Bar)) : Signals :=
  match gts_body df? with
  | Except.ok s => s
  | Except.error _ => nullSignals

theorem dfGet_MACD_missing (a b c d e f g h₁ : Series) :
    dfGet [("Open", a), ("High", b), ("Low", c), ("Close", d), ("Volume", e),
           ("RSI", f), ("SMA_20", g), ("SMA_50", h₁)] "MACD" =
      Except.error "KeyError: MACD" := by
  simp [dfGet, List.find?]

/-- Helper: a successful run of the `try` body can only produce the null snapshot. -/
theorem gts_body_ok {df? : Option (List Bar)} {s : Signals}
    (hok : gts_body df? = Except.ok s) : s = nullSignals := by
  cases df? with
  | none => exact (Except.ok.inj hok).symm
  | some h =>
    simp only [gts_body] at hok
    split at hok
    · exact (Except.ok.inj hok).symm
    · split at hok
      · exact Except.noConfusion hok
      · split at hok
        · exact Except.noConfusion hok
        · split at hok
          · exact Except.noConfusion hok
          · rw [dfGet_MACD_missing] at hok
            exact Except.noConfusion hok

/-- Helper: every run of `get_technical_signals` yields the null snapshot — each
validation failure is caught, and the successful path always dies reading the
never-assigned MACD column. -/
theorem gts_null (df? : Option (List Bar)) : get_technical_signals df? = nullSignals := by
  unfold get_technical_signals
  cases hg : gts_body df? with
  | ok s => exact gts_body_ok hg
  | error e => rfl

/-- The options-flow snapshot produced by `TradingStrategy.get_options_signals`. -/
structure OptionsSignals where
  bullish_flow : Bool
  strong_flow : Bool
  put_call_ratio : ℚ
  high_activity : Bool
deriving DecidableEq

/-- The analyst snapshot produced by `TradingStrategy.get_analyst_signals`. -/
structure AnalystSignals where
  recommendation : String
  mean_rating : ℚ
  bullish : Bool
  bearish : Bool
  target_price : ℚ
deriving DecidableEq

/-- The `equity_conditions` expression of `should_enter_trade`, with Python
short-circuit evaluation; comparing or multiplying a `None` value raises TypeError. -/
def equity_conditions (tech : Signals) (analyst : AnalystSignals) (current_price : ℚ) :
    Except String Bool := do
  let a ← if tech.oversold then pure true else do
    let r ← pyGet tech.rsi "TypeError: NoneType comparison"
    pure (decide (r < 40))
  if !a then pure false else do
    let b ← if tech.near_support then pure true else do
      let s ← pyGet tech.support "TypeError: NoneType arithmetic"
      pure (decide (current_price ≤ s * (105 / 100)))
    if !b then pure false else do
      let c ← if tech.uptrend then pure true else do
        let p ← pyGet tech.price "TypeError: NoneType comparison"
        let s20 ← pyGet tech.sma_20 "TypeError: NoneType comparison"
        pure (decide (s20 < p))
      if !c then pure false else pure analyst.bullish

/-- The `options_conditions` expression of `should_enter_trade`. -/
def options_conditions (tech : Signals) (opts : OptionsSignals) (analyst : AnalystSignals) :
    Except String Bool := do
  let a ← if tech.oversold then pure true else do
    let r ← pyGet tech.rsi "TypeError: NoneType comparison"
    pure (decide (r < 45))
  if !a then pure false
  else if !opts.bullish_flow then pure false
  else if !(opts.strong_flow || decide (opts.put_call_ratio < 8 / 10)) then pure false
  else if !opts.high_activity then pure false
  else pure analyst.bullish

/-- Body of `TradingStrategy.should_enter_trade` (the code inside its `try`), given
the three fetched snapshots and the optional scoring model (its `predict_proba`
abstracted as a map from the feature vector to the success probability).  As in the
source, the `prob = self.ml_model.predict_proba([features])[0][1]` statement sits
outside the `if` that guards the model, so it executes even when no model is
attached. -/
def should_enter_trade_try (tech : Signals) (opts : OptionsSignals)
    (analyst : AnalystSignals) (ml_model : Option (List ℚ → ℚ)) :
    Except String (Option String) := do
  match tech.price with
  | none => pure none
  | some current_price =>
    -- if hasattr(self, ml_model) and self.ml_model: features = [...]
    let features? ←
      match ml_model with
      | some _ => do
        let r ← pyGet tech.rsi "TypeError: NoneType in features"
        let s20 ← pyGet tech.sma_20 "TypeError: NoneType in features"
        let s50 ← pyGet tech.sma_50 "TypeError: NoneType in features"
        let m ← pyGet tech.macd "KeyError: macd"
        let ms ← pyGet tech.macd_signal_line "KeyError: macd_signal_line"
        pure (some [r, s20 - s50, m - ms, opts.put_call_ratio,
                    if opts.bullish_flow then 1 else 0, analyst.mean_rating])
      | none => pure (none : Option (List ℚ))
    -- prob = self.ml_model.predict_proba([features])[0][1] (unconditional)
    let prob ←
      match ml_model, features? with
      | some model, some features => pure (model features)
      | some _, none => Except.error "NameError: name features is not defined"
      | none, _ =>
        Except.error "AttributeError: NoneType object has no attribute predict_proba"
    if prob < 1 / 2 then pure none
    else do
      -- the debug logging formats the RSI value, so a None RSI would raise here
      let _ ← pyGet tech.rsi "TypeError: unsupported format string for NoneType"
      let eq_conds ← equity_conditions tech analyst current_price
      let opt_conds ← options_conditions tech opts analyst
      if eq_conds then pure (some "equity")
      else if opt_conds then pure (some "options")
      else pure none

/-- `should_enter_trade` on an already-fetched technical snapshot: the `try` body
with its blanket `except` handler returning `None`. -/
def should_enter_trade_body (tech : Signals) (opts : OptionsSignals)
    (analyst : AnalystSignals) (ml_model : Option (List ℚ → ℚ)) : Option String :=
  match should_enter_trade_try tech opts analyst ml_model with
  | Except.ok r => r
  | Except.error _ => none

/-- `TradingStrategy.should_enter_trade` end to end: the technical snapshot comes
from `get_technical_signals` on the fetched history. -/
def should_enter_trade (df? : Option (List Bar)) (opts : OptionsSignals)
    (analyst : AnalystSignals) (ml_model : Option (List ℚ → ℚ)) : Option String :=
  should_enter_trade_body (get_technical_signals df?) opts analyst ml_model

/-- The dict built for an equity paper trade by `TradingStrategy.execute_trade`
(signals audit blob and timestamps omitted). -/
structure EquityTrade where
  action : String
  quantity : Int
  entry_price : ℚ
  stop_loss : ℚ
  take_profit : ℚ
  status : String
deriving DecidableEq

/-- Equity branch of `TradingStrategy.execute_trade`, given the technical snapshot
and the `current_capital` of the strategy object.  The ATR-based
`stop_loss_price` / `take_profit_price` bands are computed, but the trade dict then
references the unbound names `stop_loss` / `take_profit`, so building it raises. -/
def execute_trade_equity (tech : Signals) (current_capital : ℚ) :
    Except String (Option EquityTrade) :=
  let current_price := tech.price
  let risk_amount := current_capital * (2 / 100)
  -- if tech_signals[atr] and tech_signals[atr] > 0:
  match pyGet tech.atr "KeyError: atr" with
  | Except.error e => Except.error e
  | Except.ok atr =>
    match pyGet current_price "TypeError: NoneType arithmetic" with
    | Except.error e => Except.error e
    | Except.ok p =>
      let stop_loss_price := if 0 < atr then p - (3 / 2) * atr else p * (95 / 100)
      let take_profit_price := if 0 < atr then p + 3 * atr else p * (115 / 100)
      let _ := (stop_loss_price, take_profit_price)
      -- quantity = int(risk_amount / current_price)
      if p = 0 then Except.error "ZeroDivisionError: division by zero"
      else
        let quantity := pyInt (risk_amount / p)
        if quantity < 1 then Except.ok none
        else
          -- trade dict reads the unbound names stop_loss and take_profit
          Except.error "NameError: name stop_loss is not defined"

/-- The equity `execute_trade` path end to end: the snapshot is refetched internally via
`get_technical_signals`. -/
def execute_trade_equity_run (df? : Option (List Bar)) (current_capital : ℚ) :
    Except String (Option EquityTrade) :=
  execute_trade_equity (get_technical_signals df?) current_capital

/-- A row of the options-chain DataFrame returned by `get_options_chain`. -/
structure OptionRow where
  strike : ℚ
  optionType : String
  expiration : String
  lastPrice : ℚ
deriving DecidableEq

/-- `OptionsStrategy.find_strike_prices`: chain strikes within the width band
around the current price, unique and sorted ascending. -/
def find_strike_prices (chain : List OptionRow) (current_price width_percentage : ℚ) :
    List ℚ :=
  let lower_bound := current_price * (1 - width_percentage)
  let upper_bound := current_price * (1 + width_percentage)
  let valid_strikes :=
    ((chain.filter (fun r => decide (lower_bound ≤ r.strike) &&
        decide (r.strike ≤ upper_bound))).map (fun r => r.strike)).dedup
  List.insertionSort (fun a b => a ≤ b) valid_strikes

/-- The spread dict built by `create_vertical_spread` (either direction). -/
structure VerticalSpread where
  strategy : String
  long_type : String
  long_strike : ℚ
  long_premium : ℚ
  short_type : String
  short_strike : ℚ
  short_premium : ℚ
  expiry : String
  max_loss : ℚ
  max_profit : ℚ
  break_even : ℚ
deriving DecidableEq

/-- `OptionsStrategy.create_vertical_spread`.  `Except.ok none` is the explicit
`return None` on fewer than two candidate strikes (or an unknown spread type:
the Python function then falls off the end), while a missing quote row raises
IndexError from the unguarded `.iloc[0]`. -/
def create_vertical_spread (spread_type expiry_date : String) (current_price : ℚ)
    (chain : List OptionRow) : Except String (Option VerticalSpread) :=
  let options_df := chain.filter (fun r => decide (r.expiration = expiry_date))
  let strikes := find_strike_prices chain current_price (5 / 100)
  if strikes.length < 2 then Except.ok none
  else if spread_type = "bull_call" then
    let long_strike := strikes.headD 0
    let short_strike := strikes.getLastD 0
    match ilocFirst (options_df.filter (fun r =>
        decide (r.strike = long_strike) && decide (r.optionType = "CALL"))) with
    | Except.error e => Except.error e
    | Except.ok long_call =>
      match ilocFirst (options_df.filter (fun r =>
          decide (r.strike = short_strike) && decide (r.optionType = "CALL"))) with
      | Except.error e => Except.error e
      | Except.ok short_call =>
        let max_loss := (long_call.lastPrice - short_call.lastPrice) * 100
        let max_profit := (short_strike - long_strike - max_loss / 100) * 100
        Except.ok (some
          { strategy := "bull_call_spread", long_type := "CALL",
            long_strike := long_strike, long_premium := long_call.lastPrice,
            short_type := "CALL", short_strike := short_strike,
            short_premium := short_call.lastPrice, expiry := expiry_date,
            max_loss := max_loss, max_profit := max_profit,
            break_even := long_strike + max_loss / 100 })
  else if spread_type = "bear_put" then
    let long_strike := strikes.getLastD 0
    let short_strike := strikes.headD 0
    match ilocFirst (options_df.filter (fun r =>
        decide (r.strike = long_strike) && decide (r.optionType = "PUT"))) with
    | Except.error e => Except.error e
    | Except.ok long_put =>
      match ilocFirst (options_df.filter (fun r =>
          decide (r.strike = short_strike) && decide (r.optionType = "PUT"))) with
      | Except.error e => Except.error e
      | Except.ok short_put =>
        let max_loss := (long_put.lastPrice - short_put.lastPrice) * 100
        let max_profit := (long_strike - short_strike - max_loss / 100) * 100
        Except.ok (some
          { strategy := "bear_put_spread", long_type := "PUT",
            long_strike := long_strike, long_premium := long_put.lastPrice,
            short_type := "PUT", short_strike := short_strike,
            short_premium := short_put.lastPrice, expiry := expiry_date,
            max_loss := max_loss, max_profit := max_profit,
            break_even := long_strike - max_loss / 100 })
  else Except.ok none

/-- The iron-condor dict built by `create_iron_condor`. -/
structure IronCondor where
  strategy : String
  put_long_strike : ℚ
  put_long_premium : ℚ
  put_short_strike : ℚ
  put_short_premium : ℚ
  call_short_strike : ℚ
  call_short_premium : ℚ
  call_long_strike : ℚ
  call_long_premium : ℚ
  expiry : String
  max_loss : ℚ
  max_profit : ℚ
  break_even_lower : ℚ
  break_even_upper : ℚ
deriving DecidableEq

/-- `OptionsStrategy.create_iron_condor`: lowest two candidate strikes form the
put spread, highest two the call spread. -/
def create_iron_condor (expiry_date : String) (current_price : ℚ)
    (chain : List OptionRow) : Except String (Option IronCondor) :=
  let options_df := chain.filter (fun r => decide (r.expiration = expiry_date))
  let strikes := find_strike_prices chain current_price (5 / 100)
  if strikes.length < 4 then Except.ok none
  else
    -- put_strikes = strikes[:2]; call_strikes = strikes[-2:]
    let ps0 := strikes.getD 0 0
    let ps1 := strikes.getD 1 0
    let cs0 := strikes.getD (strikes.length - 2) 0
    let cs1 := strikes.getD (strikes.length - 1) 0
    match ilocFirst (options_df.filter (fun r =>
        decide (r.strike = ps0) && decide (r.optionType = "PUT"))) with
    | Except.error e => Except.error e
    | Except.ok long_put =>
      match ilocFirst (options_df.filter (fun r =>
          decide (r.strike = ps1) && decide (r.optionType = "PUT"))) with
      | Except.error e => Except.error e
      | Except.ok short_put =>
        match ilocFirst (options_df.filter (fun r =>
            decide (r.strike = cs0) && decide (r.optionType = "CALL"))) with
        | Except.error e => Except.error e
        | Except.ok short_call =>
          match ilocFirst (options_df.filter (fun r =>
              decide (r.strike = cs1) && decide (r.optionType = "CALL"))) with
          | Except.error e => Except.error e
          | Except.ok long_call =>
            let net_credit := short_put.lastPrice + short_call.lastPrice
                - long_put.lastPrice - long_call.lastPrice
            let max_profit := net_credit * 100
            let max_loss := min (cs1 - cs0) (ps1 - ps0) * 100 - max_profit
            Except.ok (some
              { strategy := "iron_condor",
                put_long_strike := ps0, put_long_premium := long_put.lastPrice,
                put_short_strike := ps1, put_short_premium := short_put.lastPrice,
                call_short_strike := cs0, call_short_premium := short_call.lastPrice,
                call_long_strike := cs1, call_long_premium := long_call.lastPrice,
                expiry := expiry_date, max_loss := max_loss, max_profit := max_profit,
                break_even_lower := ps1 - net_credit,
                break_even_upper := cs0 + net_credit })

/-- The butterfly dict built by `create_butterfly`. -/
structure Butterfly where
  strategy : String
  lower_strike : ℚ
  lower_premium : ℚ
  middle_strike : ℚ
  middle_premium : ℚ
  upper_strike : ℚ
  upper_premium : ℚ
  expiry : String
  max_loss : ℚ
  max_profit : ℚ
  break_even_lower : ℚ
  break_even_upper : ℚ
deriving DecidableEq

/-- `OptionsStrategy.create_butterfly`: buy lowest and highest candidate strike
calls, sell two at the middle strike. -/
def create_butterfly (expiry_date : String) (current_price : ℚ)
    (chain : List OptionRow) : Except String (Option Butterfly) :=
  let options_df := chain.filter (fun r => decide (r.expiration = expiry_date))
  let strikes := find_strike_prices chain current_price (5 / 100)
  if strikes.length < 3 then Except.ok none
  else
    let lower_strike := strikes.getD 0 0
    let middle_strike := strikes.getD (strikes.length / 2) 0
    let upper_strike := strikes.getD (strikes.length - 1) 0
    match ilocFirst (options_df.filter (fun r =>
        decide (r.strike = lower_strike) && decide (r.optionType = "CALL"))) with
    | Except.error e => Except.error e
    | Except.ok lower_call =>
      match ilocFirst (options_df.filter (fun r =>
          decide (r.strike = middle_strike) && decide (r.optionType = "CALL"))) with
      | Except.error e => Except.error e
      | Except.ok middle_call =>
        match ilocFirst (options_df.filter (fun r =>
            decide (r.strike = upper_strike) && decide (r.optionType = "CALL"))) with
        | Except.error e => Except.error e
        | Except.ok upper_call =>
          let net_debit := lower_call.lastPrice - 2 * middle_call.lastPrice
              + upper_call.lastPrice
          let max_loss := net_debit * 100
          let max_profit := (middle_strike - lower_strike) * 100 - max_loss
          Except.ok (some
            { strategy := "butterfly",
              lower_strike := lower_strike, lower_premium := lower_call.lastPrice,
              middle_strike := middle_strike, middle_premium := middle_call.lastPrice,
              upper_strike := upper_strike, upper_premium := upper_call.lastPrice,
              expiry := expiry_date, max_loss := max_loss, max_profit := max_profit,
              break_even_lower := lower_strike + net_debit,
              break_even_upper := upper_strike - net_debit })

/-- A constructed strategy dict, tagged by the builder that produced it. -/
inductive Plan
  | vertical (v : VerticalSpread)
  | condor (c : IronCondor)
  | butterfly (b : Butterfly)
deriving DecidableEq

/-- The `max_loss` entry of a strategy dict. -/
def Plan.max_loss : Plan → ℚ
  | Plan.vertical v => v.max_loss
  | Plan.condor c => c.max_loss
  | Plan.butterfly b => b.max_loss

/-- The `max_profit` entry of a strategy dict. -/
def Plan.max_profit : Plan → ℚ
  | Plan.vertical v => v.max_profit
  | Plan.condor c => c.max_profit
  | Plan.butterfly b => b.max_profit

/-- The risk/reward key of `select_best_strategy`:
`abs(max_profit/max_loss)` with 0 for a zero `max_loss`. -/
def riskRewardScore (p : Plan) : ℚ :=
  if p.max_loss ≠ 0 then |p.max_profit / p.max_loss| else 0

/-- Python `max(xs, key=f)` on a list: the first element with maximal key
(`none` only for the empty list, where Python would raise). -/
def pyMax (f : Plan → ℚ) : List Plan → Option Plan
  | [] => none
  | x :: xs => some (xs.foldl (fun best y => if f best < f y then y else best) x)

/-- `OptionsStrategy.select_best_strategy`, given the valid expiry dates from
`get_expiry_dates` and the current options chain from the collaborator. -/
def select_best_strategy (expiry_dates : List String) (current_price : ℚ)
    (technicals : Signals) (options_flow : OptionsSignals) (chain : List OptionRow) :
    Except String (Option Plan) :=
  match expiry_dates with
  | [] => Except.ok none
  | expiry_date :: _ =>
    -- is_volatile compares the raw RSI, so a None RSI raises TypeError here
    match pyGet technicals.rsi "TypeError: NoneType comparison" with
    | Except.error e => Except.error e
    | Except.ok rsi =>
      let is_trending := technicals.uptrend || technicals.near_support ||
          technicals.near_resistance
      let is_volatile := decide (70 < rsi) || decide (rsi < 30)
      let is_bullish := technicals.uptrend && technicals.near_support &&
          options_flow.bullish_flow
      let is_bearish := !technicals.uptrend && technicals.near_resistance &&
          !options_flow.bullish_flow
      let built : Except String (List Plan) :=
        if is_bullish && !is_volatile then
          match create_vertical_spread "bull_call" expiry_date current_price chain with
          | Except.error e => Except.error e
          | Except.ok (some v) => Except.ok [Plan.vertical v]
          | Except.ok none => Except.ok []
        else if is_bearish && !is_volatile then
          match create_vertical_spread "bear_put" expiry_date current_price chain with
          | Except.error e => Except.error e
          | Except.ok (some v) => Except.ok [Plan.vertical v]
          | Except.ok none => Except.ok []
        else if is_volatile then
          match create_butterfly expiry_date current_price chain with
          | Except.error e => Except.error e
          | Except.ok (some b) => Except.ok [Plan.butterfly b]
          | Except.ok none => Except.ok []
        else if !is_trending then
          match create_iron_condor expiry_date current_price chain with
          | Except.error e => Except.error e
          | Except.ok (some c) => Except.ok [Plan.condor c]
          | Except.ok none => Except.ok []
        else Except.ok []
      match built with
      | Except.error e => Except.error e
      | Except.ok [] => Except.ok none
      | Except.ok strategies => Except.ok (pyMax riskRewardScore strategies)

/-- The trade type tag tested by the monitoring code
(`equity` vs the options tag). -/
inductive TradeKind
  | equity
  | options
deriving DecidableEq

/-- One leg of a stored options trade. `quantity` is `none` when the key is
absent (the code reads it with a `.get` defaulting to 1). -/
structure Leg where
  type : String
  action : String
  strike : ℚ
  premium : ℚ
  quantity : Option ℚ
deriving DecidableEq

/-- A persisted trade record (an entry of `data/paper_trades.json`), restricted to
the keys the monitoring code reads.  `exit_date`, `exit_price` and `profit` are
`none` while the key is absent or holds `None`; `expiration` is the key the
options monitoring branch filters the chain by. -/
structure Trade where
  symbol : String
  kind : TradeKind
  quantity : ℚ
  entry_price : ℚ
  stop_loss : ℚ
  take_profit : ℚ
  status : String
  exit_date : Option String
  exit_price : Option ℚ
  profit : Option ℚ
  expiration : String
  legs : List Leg
deriving DecidableEq

/-- `self.max_loss_pct` set in `TradingStrategy.__init__`. -/
def max_loss_pct : ℚ := 20 / 100

/-- Quote lookup for one leg in the current chain: the row filter
`strike & optionType & expiration` followed by the `.empty` guard. -/
def legQuote (options_df : List OptionRow) (expiration : String) (leg : Leg) :
    Option OptionRow :=
  (options_df.filter (fun r => decide (r.strike = leg.strike) &&
    decide (r.optionType = leg.type) && decide (r.expiration = expiration))).head?

/-- One step of the `current_value` accumulation: a buy leg subtracts
`lastPrice * 100 * quantity`, a sell leg adds it, and a leg whose filtered quote
frame is empty is skipped. -/
def legContribution (options_df : List OptionRow) (expiration : String)
    (acc : ℚ) (leg : Leg) : ℚ :=
  match legQuote options_df expiration leg with
  | some row =>
    if leg.action = "buy" then acc - row.lastPrice * 100 * leg.quantity.getD 1
    else acc + row.lastPrice * 100 * leg.quantity.getD 1
  | none => acc

/-- The `current_value` loop of the options monitoring branch. -/
def currentValue (options_df : List OptionRow) (expiration : String)
    (legs : List Leg) : ℚ :=
  legs.foldl (legContribution options_df expiration) 0

/-- `initial_value`: the entry net value of the legs (sell +1, buy −1). -/
def initialValue (legs : List Leg) : ℚ :=
  (legs.map (fun leg => leg.quantity.getD 1 * leg.premium * 100 *
    (if leg.action = "sell" then 1 else -1))).sum

/-- One iteration of the `TradingStrategy.monitor_positions` loop on a single
trade.  `current_price` is, as in the source, the `price` entry of the
technical-signals snapshot fetched inside the loop, so it may be `None`; the
equity branch subtracts it from the entry price, which raises TypeError on a
`None` price (the options branch never touches it).  `now` stands for the exit
timestamp. -/
def monitor_position_step (now : String) (current_price : Option ℚ)
    (options_df : List OptionRow) (trade : Trade) : Except String Trade :=
  if trade.status = "open" then
    if trade.status = "open" ∧ trade.kind = TradeKind.equity then
      -- pnl_percent = (current_price - entry) / entry * 100
      match current_price with
      | none => Except.error "TypeError: unsupported operand type for NoneType"
      | some p =>
        let entry := trade.entry_price
        let pnl_percent := (p - entry) / entry * 100
        let trade1 :=
          if 10 < pnl_percent then
            let new_stop := p * (95 / 100)
            if trade.stop_loss < new_stop then { trade with stop_loss := new_stop }
            else trade
          else trade
        if p ≤ trade1.stop_loss ∨ trade1.take_profit ≤ p ∨
            pnl_percent ≤ -(max_loss_pct * 100) then
          Except.ok
            { trade1 with
                status := "closed", exit_date := some now, exit_price := some p,
                profit := some ((p - entry) * trade1.quantity) }
        else Except.ok trade1
    else if trade.kind = TradeKind.options then
      if options_df.isEmpty then Except.ok trade
      else
        let current_value := currentValue options_df trade.expiration trade.legs
        let initial_value := initialValue trade.legs
        let unrealized_pnl := current_value - initial_value
        if unrealized_pnl ≤ -trade.stop_loss ∨ trade.take_profit ≤ unrealized_pnl then
          Except.ok
            { trade with
                status := "closed", exit_date := some now,
                profit := some unrealized_pnl }
        else Except.ok trade
    else Except.ok trade
  else Except.ok trade

/-- Helper: an equity monitoring cycle always raises — the cycle price it
subtracts from the entry price is the `price` of the always-null technical
snapshot, i.e. `None`, whatever history the data collaborator served. -/
theorem equity_cycle_price_error (df? : Option (List Bar)) (now : String)
    (odf : List OptionRow) (t : Trade) (hopen : t.status = "open")
    (hkind : t.kind = TradeKind.equity) :
    monitor_position_step now (get_technical_signals df?).price odf t =
      Except.error "TypeError: unsupported operand type for NoneType" := by
  rw [gts_null]
  simp [monitor_position_step, hopen, hkind, nullSignals]

/-- The attribute names defined on the `TradingStrategy` class (its methods). -/
def tradingStrategyMethods : List String :=
  ["__init__", "get_technical_signals", "get_analyst_signals",
   "get_options_signals", "should_enter_trade", "execute_trade",
   "monitor_positions", "get_trading_stats"]

/-- The per-trade loop of `PortfolioManager.monitor_portfolio`: a symbol with no
registered strategy is skipped (dropped from the updated store), a closed trade
passes through unchanged, and an open trade is handed to
`strategy.monitor_position(trade)` — an attribute `TradingStrategy` does not
define, so attribute resolution raises before any close or capital release. -/
def monitor_portfolio_go (registered : List String) (available : ℚ)
    (acc : List Trade) : List Trade → Except String (ℚ × List Trade)
  | [] => Except.ok (available, acc.reverse)
  | t :: rest =>
    if t.symbol ∈ registered then
      if t.status = "open" then
        if "monitor_position" ∈ tradingStrategyMethods then
          -- unreachable: the attribute lookup raises first
          monitor_portfolio_go registered available (t :: acc) rest
        else
          Except.error
            "AttributeError: TradingStrategy object has no attribute monitor_position"
      else monitor_portfolio_go registered available (t :: acc) rest
    else monitor_portfolio_go registered available acc rest

/-- `PortfolioManager.monitor_portfolio`, abstracted over the registered strategy
symbols, the stored trades and the current available capital. -/
def monitor_portfolio (registered : List String) (trades : List Trade)
    (available : ℚ) : Except String (ℚ × List Trade) :=
  monitor_portfolio_go registered available [] trades

/-- The unrealized-P&L loop of `PortfolioManager.get_portfolio_stats` over open
trades: equity marks to the strategy price (a `None` price makes the subtraction
raise TypeError), options calls `strategy.calculate_options_pnl`, an attribute
`TradingStrategy` does not define. -/
def stats_unrealized_go (registered : List String) (price : Option ℚ) (acc : ℚ) :
    List Trade → Except String ℚ
  | [] => Except.ok acc
  | t :: rest =>
    if t.status = "open" then
      if t.symbol ∈ registered then
        if t.kind = TradeKind.equity then
          match price with
          | none => Except.error "TypeError: unsupported operand type for NoneType"
          | some p =>
            stats_unrealized_go registered price
              (acc + (p - t.entry_price) * t.quantity) rest
        else
          if "calculate_options_pnl" ∈ tradingStrategyMethods then
            stats_unrealized_go registered price acc rest
          else
            Except.error
              "AttributeError: TradingStrategy object has no attribute calculate_options_pnl"
      else stats_unrealized_go registered price acc rest
    else stats_unrealized_go registered price acc rest

/-- The unrealized-P&L aggregation of `get_portfolio_stats`. -/
def stats_unrealized (registered : List String) (price : Option ℚ)
    (trades : List Trade) : Except String ℚ :=
  stats_unrealized_go registered price 0 trades

/-- A ledger view of a position: the quantities `check_signals` reserves against
and `monitor_portfolio` releases on close. -/
structure LedgerPos where
  symbol : String
  kind : TradeKind
  entry_price : ℚ
  quantity : ℚ
  max_loss : ℚ
deriving DecidableEq

/-- Capital deducted at admission (`check_signals`):
equity `entry_price * quantity`, options `max_loss`. -/
def reserveCost (p : LedgerPos) : ℚ :=
  match p.kind with
  | TradeKind.equity => p.entry_price * p.quantity
  | TradeKind.options => p.max_loss

/-- The capital-relevant state of `PortfolioManager`. -/
structure Ledger where
  available : ℚ
  openPositions : List LedgerPos
  closedPositions : List (LedgerPos × ℚ)
  maxPositionSize : ℚ
deriving DecidableEq

/-- The ledger-affecting operations of a trading session. -/
inductive LedgerEvent
  | admitPos (p : LedgerPos)
  | close (symbol : String) (exitVal : ℚ)
  | recalcMaxSize (m : ℚ)
deriving DecidableEq

/-- One ledger transition.  `admit` is the `check_signals` path: skip on an
already-open symbol (diversification), stop when
`available_capital < max_position_size`, otherwise deduct the cost and persist
the position.  `close` is the `monitor_portfolio` close path: equity releases
`exit_price * quantity` and books `(exit − entry) * quantity`; options releases
exactly the realized profit (`exitVal` is the closing unrealized P&L) and books
it.  `recalcMaxSize` is the per-cycle `max_position_size` update. -/
def ledgerStep (L : Ledger) : LedgerEvent → Ledger
  | LedgerEvent.admitPos p =>
    if L.openPositions.any (fun q => q.symbol == p.symbol) then L
    else if L.available < L.maxPositionSize then L
    else { L with available := L.available - reserveCost p,
                  openPositions := p :: L.openPositions }
  | LedgerEvent.close sym exitVal =>
    match L.openPositions.find? (fun q => q.symbol == sym) with
    | none => L
    | some p =>
      let profit :=
        match p.kind with
        | TradeKind.equity => (exitVal - p.entry_price) * p.quantity
        | TradeKind.options => exitVal
      let release :=
        match p.kind with
        | TradeKind.equity => exitVal * p.quantity
        | TradeKind.options => profit
      { L with available := L.available + release,
               openPositions := L.openPositions.eraseP (fun q => q.symbol == sym),
               closedPositions := (p, profit) :: L.closedPositions }
  | LedgerEvent.recalcMaxSize m => { L with maxPositionSize := m }

/-- Run a session: fold the events through the ledger. -/
def runLedger (L : Ledger) (events : List LedgerEvent) : Ledger :=
  events.foldl ledgerStep L

/-- A fresh `PortfolioManager(initial_capital)` ledger. -/
def initLedger (initial_capital : ℚ) : Ledger :=
  { available := initial_capital, openPositions := [], closedPositions := [],
    maxPositionSize := initial_capital * (2 / 100) }

/-- Capital currently reserved by the open positions. -/
def sumReserved (l : List LedgerPos) : ℚ := (l.map reserveCost).sum

/-- Realized profit over the closed positions. -/
def sumRealized (l : List (LedgerPos × ℚ)) : ℚ := (l.map (fun pp => pp.2)).sum

/-- Total `max_loss` margin of the closed options positions — the reserve the
close path never returns to the pool. -/
def sumClosedOptionsMaxLoss (l : List (LedgerPos × ℚ)) : ℚ :=
  (l.map (fun pp =>
    match pp.1.kind with
    | TradeKind.options => pp.1.max_loss
    | TradeKind.equity => 0)).sum

/-- Claim C2: for every input history — including valid histories of at least 50
bars — `get_technical_signals` returns the null snapshot: only the RSI, SMA_20 and
SMA_50 columns are ever assigned, yet the code reads the MACD, MACD_signal,
Bollinger and ATR columns, so the exception fallback is always taken; consequently
`should_enter_trade` returns `None` for every instrument and no trade is entered. -/
theorem c2_signals_always_null :
    (∀ df? : Option (List Bar), get_technical_signals df? = nullSignals) ∧
    (∀ (df? : Option (List Bar)) (opts : OptionsSignals) (analyst : AnalystSignals)
      (ml : Option (List ℚ → ℚ)), should_enter_trade df? opts analyst ml = none) := by
  refine ⟨gts_null, fun df? opts analyst ml => ?_⟩
  unfold should_enter_trade
  rw [gts_null]
  rfl

/-- A fully-populated bullish snapshot satisfying the equity entry conditions. -/
def c4Tech : Signals :=
  { price := some 100, rsi := some 25, oversold := true, overbought := false,
    uptrend := true, support := some 99, resistance := some 120,
    near_support := true, near_resistance := false,
    sma_20 := some 101, sma_50 := some 100,
    macd := some 1, macd_signal_line := some 0 }

/-- A bullish options-flow snapshot. -/
def c4Flow : OptionsSignals :=
  { bullish_flow := true, strong_flow := true, put_call_ratio := 1 / 2,
    high_activity := true }

/-- A bullish analyst snapshot. -/
def c4Analyst : AnalystSignals :=
  { recommendation := "BUY", mean_rating := 3 / 2, bullish := true,
    bearish := false, target_price := 120 }

/-- Claim C4: with a scoring model attached, a predicted probability below 0.5
does veto the signal; but with no model attached the dedented
`prob = self.ml_model.predict_proba(...)` line raises AttributeError — caught by
the blanket handler — so evaluation never reaches the entry gating: the very
signals that yield an equity entry under a confident model yield no trade at all
when the model is absent, contradicting the claim that absence merely disables
the veto. -/
theorem c4_scoring_model_veto :
    should_enter_trade_body c4Tech c4Flow c4Analyst (some (fun _ => 1)) = some "equity" ∧
    should_enter_trade_body c4Tech c4Flow c4Analyst (some (fun _ => 0)) = none ∧
    should_enter_trade_body c4Tech c4Flow c4Analyst none = none ∧
    should_enter_trade_try c4Tech c4Flow c4Analyst none =
      Except.error "AttributeError: NoneType object has no attribute predict_proba" := by
  refine ⟨?_, ?_, rfl, rfl⟩ <;>
    norm_num [should_enter_trade_body, should_enter_trade_try, equity_conditions,
      options_conditions, pyGet, c4Tech, c4Flow, c4Analyst, Bind.bind, Except.bind,
      Pure.pure, Except.pure]

/-- A fully-populated snapshot with price 50 and a positive ATR of 2. -/
def c5Tech : Signals :=
  { price := some 50, rsi := some 25, oversold := true, overbought := false,
    uptrend := true, support := some 49, resistance := some 60,
    near_support := true, near_resistance := false,
    sma_20 := some 51, sma_50 := some 50, atr := some 2 }

/-- Claim C5: the claimed quantity rule and the quantity-below-1 rejection do
appear (capital 100 gives `int(2/50) = 0`, hence `None`), but whenever the
quantity reaches 1 the trade dict raises NameError — the bands are computed into
`stop_loss_price` / `take_profit_price` while the dict reads the unbound names
`stop_loss` / `take_profit` — so no equity position with the claimed risk bands is
ever created; moreover with the real (always-null) snapshot the function dies
even earlier on the absent `atr` key. -/
theorem c5_equity_trade_never_built :
    execute_trade_equity c5Tech 100000 =
      Except.error "NameError: name stop_loss is not defined" ∧
    execute_trade_equity c5Tech 100 = Except.ok none ∧
    (∀ (df? : Option (List Bar)) (cap : ℚ),
      execute_trade_equity_run df? cap = Except.error "KeyError: atr") := by
  refine ⟨?_, ?_, fun df? cap => ?_⟩
  · norm_num [execute_trade_equity, pyGet, c5Tech, pyInt]
  · norm_num [execute_trade_equity, pyGet, c5Tech, pyInt]
  unfold execute_trade_equity_run
  rw [gts_null]
  rfl

/-- Helper: one open trade on a registered symbol makes the whole
`monitor_portfolio` loop raise, whatever precedes it. -/
theorem monitor_portfolio_go_no_ok (registered : List String) :
    ∀ (trades : List Trade) (available : ℚ) (acc : List Trade),
      (∃ t ∈ trades, t.status = "open" ∧ t.symbol ∈ registered) →
      ∀ res, monitor_portfolio_go registered available acc trades ≠ Except.ok res := by
  intro trades
  induction trades with
  | nil =>
    rintro available acc ⟨t, ht, -⟩ res
    simp at ht
  | cons t rest ih =>
    rintro available acc ⟨w, hw, hopen, hreg⟩ res
    unfold monitor_portfolio_go
    by_cases hmem : t.symbol ∈ registered
    · rw [if_pos hmem]
      by_cases hst : t.status = "open"
      · rw [if_pos hst]
        rw [if_neg (by decide : ¬("monitor_position" ∈ tradingStrategyMethods))]
        exact fun h => Except.noConfusion h
      · rw [if_neg hst]
        refine ih available (t :: acc) ⟨w, ?_, hopen, hreg⟩ res
        rcases List.mem_cons.mp hw with h | h
        · exact absurd (h ▸ hopen) hst
        · exact h
    · rw [if_neg hmem]
      refine ih available acc ⟨w, ?_, hopen, hreg⟩ res
      rcases List.mem_cons.mp hw with h | h
      · exact absurd (h ▸ hreg) hmem
      · exact h

/-- Helper: one open options trade on a registered symbol prevents the
unrealized-P&L loop from succeeding. -/
theorem stats_unrealized_go_no_ok (registered : List String) (price : Option ℚ) :
    ∀ (trades : List Trade) (acc : ℚ),
      (∃ t ∈ trades, t.status = "open" ∧ t.kind = TradeKind.options ∧
        t.symbol ∈ registered) →
      ∀ q, stats_unrealized_go registered price acc trades ≠ Except.ok q := by
  intro trades
  induction trades with
  | nil =>
    rintro acc ⟨t, ht, -⟩ q
    simp at ht
  | cons t rest ih =>
    rintro acc ⟨w, hw, hopen, hkind, hreg⟩ q
    unfold stats_unrealized_go
    by_cases hst : t.status = "open"
    · rw [if_pos hst]
      by_cases hmem : t.symbol ∈ registered
      · rw [if_pos hmem]
        by_cases heq : t.kind = TradeKind.equity
        · rw [if_pos heq]
          cases price with
          | none => exact fun h => Except.noConfusion h
          | some p =>
            refine ih _ ⟨w, ?_, hopen, hkind, hreg⟩ q
            rcases List.mem_cons.mp hw with h | h
            · have hk := h ▸ hkind
              rw [heq] at hk
              exact absurd hk (by decide)
            · exact h
        · rw [if_neg heq]
          rw [if_neg (by decide : ¬("calculate_options_pnl" ∈ tradingStrategyMethods))]
          exact fun h => Except.noConfusion h
      · rw [if_neg hmem]
        refine ih _ ⟨w, ?_, hopen, hkind, hreg⟩ q
        rcases List.mem_cons.mp hw with h | h
        · exact absurd (h ▸ hreg) hmem
        · exact h
    · rw [if_neg hst]
      refine ih _ ⟨w, ?_, hopen, hkind, hreg⟩ q
      rcases List.mem_cons.mp hw with h | h
      · exact absurd (h ▸ hopen) hst
      · exact h

/-- An open options trade on a registered symbol, for the C3 witness. -/
def c3Trade : Trade :=
  { symbol := "AAPL", kind := TradeKind.options, quantity := 1, entry_price := 0,
    stop_loss := 100, take_profit := 100, status := "open", exit_date := none,
    exit_price := none, profit := none, expiration := "E", legs := [] }

/-- Claim C3: `TradingStrategy` defines `monitor_positions` but neither
`monitor_position` nor `calculate_options_pnl`.  Hence `monitor_portfolio` raises
AttributeError as soon as it reaches an open trade whose symbol has a registered
strategy — so this path never transitions a position from open to closed and
never releases reserved capital — and the unrealized-P&L loop of
`get_portfolio_stats` likewise cannot succeed once an open options trade has a
registered strategy. -/
theorem c3_monitoring_attribute_errors :
    ("monitor_position" ∉ tradingStrategyMethods) ∧
    ("calculate_options_pnl" ∉ tradingStrategyMethods) ∧
    ("monitor_positions" ∈ tradingStrategyMethods) ∧
    (∀ (registered : List String) (trades : List Trade) (available : ℚ),
      (∃ t ∈ trades, t.status = "open" ∧ t.symbol ∈ registered) →
      ∀ res, monitor_portfolio registered trades available ≠ Except.ok res) ∧
    (∀ (registered : List String) (price : Option ℚ) (trades : List Trade),
      (∃ t ∈ trades, t.status = "open" ∧ t.kind = TradeKind.options ∧
        t.symbol ∈ registered) →
      ∀ q, stats_unrealized registered price trades ≠ Except.ok q) := by
  refine ⟨by decide, by decide, by decide, ?_, ?_⟩
  · intro registered trades available hex res
    exact monitor_portfolio_go_no_ok registered trades available [] hex res
  · intro registered price trades hex q
    exact stats_unrealized_go_no_ok registered price trades 0 hex q

/-- Witness for C3 at a concrete open options trade. -/
theorem c3_monitoring_attribute_errors_witness :
    monitor_portfolio ["AAPL"] [c3Trade] 0 ≠ Except.ok (0, [c3Trade]) :=
  c3_monitoring_attribute_errors.2.2.2.1 ["AAPL"] [c3Trade] 0
    ⟨c3Trade, by simp, rfl, by simp [c3Trade]⟩ (0, [c3Trade])

/-- The spec example chain: candidate strikes 98 and 102 within ±5% of price 100,
call premiums 4.0 and 1.5, single expiry E. -/
def c9Chain : List OptionRow :=
  [{ strike := 98, optionType := "CALL", expiration := "E", lastPrice := 4 },
   { strike := 102, optionType := "CALL", expiration := "E", lastPrice := 3 / 2 }]

/-- The spread the example chain produces. -/
def c9Spread : VerticalSpread :=
  { strategy := "bull_call_spread", long_type := "CALL", long_strike := 98,
    long_premium := 4, short_type := "CALL", short_strike := 102,
    short_premium := 3 / 2, expiry := "E", max_loss := 250, max_profit := 150,
    break_even := 201 / 2 }

/-- Claim C9: every bull call spread built by `create_vertical_spread` satisfies
`max_loss = (long_premium − short_premium) * 100`,
`max_profit = (short_strike − long_strike) * 100 − max_loss` and
`break_even = long_strike + max_loss / 100`; on the spec example (strikes 98/102,
premiums 4.0/1.5) the result has max_loss 250, max_profit 150 and
break_even 100.5. -/
theorem c9_bull_call_spread_formulas :
    (∀ (e : String) (cp : ℚ) (chain : List OptionRow) (s : VerticalSpread),
      create_vertical_spread "bull_call" e cp chain = Except.ok (some s) →
      s.max_loss = (s.long_premium - s.short_premium) * 100 ∧
      s.max_profit = (s.short_strike - s.long_strike) * 100 - s.max_loss ∧
      s.break_even = s.long_strike + s.max_loss / 100) ∧
    (create_vertical_spread "bull_call" "E" 100 c9Chain = Except.ok (some c9Spread) ∧
      c9Spread.max_loss = 250 ∧ c9Spread.max_profit = 150 ∧
      c9Spread.break_even = 201 / 2) := by
  constructor
  · intro e cp chain s h
    simp only [create_vertical_spread] at h
    split at h
    · simp at h
    · rw [if_pos trivial] at h
      split at h
      · exact absurd h (fun hc => Except.noConfusion hc)
      · split at h
        · exact absurd h (fun hc => Except.noConfusion hc)
        · rw [Except.ok.injEq, Option.some.injEq] at h
          subst h
          refine ⟨rfl, by ring, rfl⟩
  · refine ⟨?_, rfl, rfl, rfl⟩
    norm_num [create_vertical_spread, find_strike_prices, ilocFirst, c9Chain,
      c9Spread, List.insertionSort, List.orderedInsert, List.filter, List.dedup]

/-- Witness for C9: the formulas instantiated on the example spread. -/
theorem c9_bull_call_spread_formulas_witness :
    c9Spread.max_loss = (c9Spread.long_premium - c9Spread.short_premium) * 100 ∧
    c9Spread.max_profit =
      (c9Spread.short_strike - c9Spread.long_strike) * 100 - c9Spread.max_loss ∧
    c9Spread.break_even = c9Spread.long_strike + c9Spread.max_loss / 100 :=
  c9_bull_call_spread_formulas.1 "E" 100 c9Chain c9Spread
    c9_bull_call_spread_formulas.2.1

/-- The spec trailing-stop scenario: equity entry 100, stop 95, target 115,
10 shares. -/
def c10Trade : Trade :=
  { symbol := "X", kind := TradeKind.equity, quantity := 10, entry_price := 100,
    stop_loss := 95, take_profit := 115, status := "open", exit_date := none,
    exit_price := none, profit := none, expiration := "", legs := [] }

/-- The spec scenario after the 112 cycle would run: stop ratcheted to 106.4. -/
def c10Trade1 : Trade :=
  { symbol := "X", kind := TradeKind.equity, quantity := 10, entry_price := 100,
    stop_loss := 532 / 5, take_profit := 115, status := "open", exit_date := none,
    exit_price := none, profit := none, expiration := "", legs := [] }

/-- The spec scenario after the 106 cycle would run: closed at 106, profit 60. -/
def c10Trade2 : Trade :=
  { symbol := "X", kind := TradeKind.equity, quantity := 10, entry_price := 100,
    stop_loss := 532 / 5, take_profit := 115, status := "closed",
    exit_date := some "d2", exit_price := some 106, profit := some 60,
    expiration := "", legs := [] }

/-- Claim C10: the claimed trailing-stop behavior is unreachable in the program.
The cycle price is `get_technical_signals()['price']`, which is always `None`,
so every equity monitoring cycle raises TypeError at the P&L computation and
never ratchets a stop or closes a position (first conjunct, over every history).
The branch does encode the claimed logic: were a price available, a cycle with
P&L% above 10 would set the stop to `max(stop_loss, price*0.95)`, a successful
cycle never lowers the stop, and on the spec scenario (entry 100, stop 95) a
price of 112 would ratchet to 106.4 and a later 106 would close with
profit `(106 − 100) * quantity`. -/
theorem c10_trailing_stop_unreachable :
    (∀ (df? : Option (List Bar)) (now : String) (odf : List OptionRow) (t : Trade),
      t.status = "open" → t.kind = TradeKind.equity →
      monitor_position_step now (get_technical_signals df?).price odf t =
        Except.error "TypeError: unsupported operand type for NoneType") ∧
    (∀ (now : String) (p : ℚ) (odf : List OptionRow) (t : Trade),
      t.status = "open" → t.kind = TradeKind.equity →
      10 < (p - t.entry_price) / t.entry_price * 100 →
      Except.map Trade.stop_loss (monitor_position_step now (some p) odf t) =
        Except.ok (max t.stop_loss (p * (95 / 100)))) ∧
    (∀ (now : String) (cp : Option ℚ) (odf : List OptionRow) (t t1 : Trade),
      monitor_position_step now cp odf t = Except.ok t1 →
      t.stop_loss ≤ t1.stop_loss) ∧
    (monitor_position_step "d1" (some 112) [] c10Trade = Except.ok c10Trade1 ∧
     c10Trade1.status = "open" ∧ c10Trade1.stop_loss = 532 / 5 ∧
     monitor_position_step "d2" (some 106) [] c10Trade1 = Except.ok c10Trade2 ∧
     c10Trade2.status = "closed" ∧ c10Trade2.exit_price = some 106 ∧
     c10Trade2.profit = some ((106 - 100) * c10Trade.quantity)) := by
  refine ⟨equity_cycle_price_error, ?_, ?_, ?_⟩
  · intro now p odf t hopen hkind hpnl
    simp only [monitor_position_step, hopen, hkind, hpnl, and_self, if_true]
    rw [apply_ite (Except.map Trade.stop_loss)]
    simp only [Except.map]
    rw [ite_self]
    by_cases hlt : t.stop_loss < p * (95 / 100)
    · rw [if_pos hlt]
      exact congrArg Except.ok (max_eq_right (le_of_lt hlt)).symm
    · rw [if_neg hlt]
      exact congrArg Except.ok (max_eq_left (not_lt.mp hlt)).symm
  · intro now cp odf t t1 hok
    simp only [monitor_position_step] at hok
    by_cases h1 : t.status = "open"
    · rw [if_pos h1] at hok
      by_cases h2 : t.status = "open" ∧ t.kind = TradeKind.equity
      · rw [if_pos h2] at hok
        split at hok
        · exact absurd hok (fun hc => Except.noConfusion hc)
        · split_ifs at hok <;>
            (rw [Except.ok.injEq] at hok; subst hok) <;> simp_all <;> linarith
      · rw [if_neg h2] at hok
        by_cases h3 : t.kind = TradeKind.options
        · rw [if_pos h3] at hok
          split_ifs at hok <;>
            (rw [Except.ok.injEq] at hok; subst hok) <;> simp_all
        · rw [if_neg h3] at hok
          rw [Except.ok.injEq] at hok
          subst hok
          exact le_refl _
    · rw [if_neg h1] at hok
      rw [Except.ok.injEq] at hok
      subst hok
      exact le_refl _
  · refine ⟨?_, rfl, rfl, ?_, rfl, rfl, ?_⟩ <;>
      (simp [monitor_position_step, c10Trade, c10Trade1, c10Trade2, max_loss_pct];
       try norm_num)

/-- Witness for C10: on the spec trade the equity cycle raises with the real
(always-None) price. -/
theorem c10_trailing_stop_unreachable_witness :
    monitor_position_step "d" (get_technical_signals none).price [] c10Trade =
      Except.error "TypeError: unsupported operand type for NoneType" :=
  c10_trailing_stop_unreachable.1 none "d" [] c10Trade rfl rfl

/-- An open two-leg options position (dollar stop 200, dollar target 150) whose
legs are both quoted in `c7Chain`. -/
def c7Trade : Trade :=
  { symbol := "Y", kind := TradeKind.options, quantity := 1, entry_price := 0,
    stop_loss := 200, take_profit := 150, status := "open", exit_date := none,
    exit_price := none, profit := none, expiration := "E",
    legs := [{ type := "CALL", action := "buy", strike := 100, premium := 5,
               quantity := none },
             { type := "CALL", action := "sell", strike := 105, premium := 2,
               quantity := none }] }

/-- A chain quoting both legs of `c7Trade` at collapsed prices. -/
def c7Chain : List OptionRow :=
  [{ strike := 100, optionType := "CALL", expiration := "E", lastPrice := 1 },
   { strike := 105, optionType := "CALL", expiration := "E", lastPrice := 1 / 2 }]

/-- The same position after a close (for the idempotence witness). -/
def c7ClosedTrade : Trade :=
  { symbol := "Y", kind := TradeKind.options, quantity := 1, entry_price := 0,
    stop_loss := 200, take_profit := 150, status := "closed",
    exit_date := some "d0", exit_price := none, profit := some 250,
    expiration := "E", legs := [] }

/-- The record the cycle produces for `c7Trade`: closed, exit timestamp and
profit set, exit price still absent. -/
def c7Closed : Trade :=
  { symbol := "Y", kind := TradeKind.options, quantity := 1, entry_price := 0,
    stop_loss := 200, take_profit := 150, status := "closed",
    exit_date := some "d", exit_price := none, profit := some 250,
    expiration := "E",
    legs := [{ type := "CALL", action := "buy", strike := 100, premium := 5,
               quantity := none },
             { type := "CALL", action := "sell", strike := 105, premium := 2,
               quantity := none }] }

/-- Claim C7 counterexample: a fully-quoted options position is closed by the
lifecycle manager with the exit timestamp and realized profit populated, but the
exit price/value field is never set. -/
theorem c7_counterexample_options_exit_price :
    monitor_position_step "d" none c7Chain c7Trade = Except.ok c7Closed ∧
    c7Closed.status = "closed" ∧
    c7Closed.exit_date = some "d" ∧
    c7Closed.profit = some 250 ∧
    c7Closed.exit_price = none := by
  refine ⟨?_, rfl, rfl, rfl, rfl⟩
  simp [monitor_position_step, c7Trade, c7Chain, c7Closed, currentValue,
    initialValue, legContribution, legQuote, max_loss_pct]
  try norm_num

/-- Claim C7, amended: the lifecycle manager never closes an equity position —
its equity branch raises TypeError on the always-None cycle price before any
close could happen; an options position it transitions to closed gets the exit
timestamp and realized profit populated but never the exit price/value; and a
position that is not open (in particular an already-closed one) passes through
the monitoring loop unchanged, so a second close cannot occur. -/
theorem c7_amended_close_fields :
    (∀ (df? : Option (List Bar)) (now : String) (odf : List OptionRow) (t : Trade),
      t.status = "open" → t.kind = TradeKind.equity →
      monitor_position_step now (get_technical_signals df?).price odf t =
        Except.error "TypeError: unsupported operand type for NoneType") ∧
    (∀ (now : String) (cp : Option ℚ) (df : List OptionRow) (t t1 : Trade),
      t.status = "open" → t.kind = TradeKind.options →
      monitor_position_step now cp df t = Except.ok t1 →
      t1.status = "closed" →
      t1.exit_date = some now ∧
      t1.profit =
        some (currentValue df t.expiration t.legs - initialValue t.legs) ∧
      t1.exit_price = t.exit_price) ∧
    (∀ (now : String) (cp : Option ℚ) (df : List OptionRow) (t : Trade),
      t.status = "closed" → monitor_position_step now cp df t = Except.ok t) := by
  refine ⟨equity_cycle_price_error, ?_, ?_⟩
  · intro now cp df t t1 hopen hkind hok hclosed
    simp only [monitor_position_step, hopen, hkind, true_and, and_true, if_true,
      reduceCtorEq, and_false, false_and, if_false] at hok
    split_ifs at hok <;>
      (rw [Except.ok.injEq] at hok; subst hok) <;> simp_all
  · intro now cp df t hclosed
    simp [monitor_position_step, hclosed]

/-- Witness for C7: a closed position is untouched by a further cycle. -/
theorem c7_amended_close_fields_witness :
    monitor_position_step "d" none [] c7ClosedTrade = Except.ok c7ClosedTrade :=
  c7_amended_close_fields.2.2 "d" none [] c7ClosedTrade rfl

/-- The buy leg of `c6Trade`, which has no quote row in `c6Chain`. -/
def c6Leg1 : Leg :=
  { type := "CALL", action := "buy", strike := 100, premium := 5, quantity := none }

/-- The sell leg of `c6Trade`, quoted in `c6Chain`. -/
def c6Leg2 : Leg :=
  { type := "CALL", action := "sell", strike := 105, premium := 2, quantity := none }

/-- An open options position whose long leg is missing from the live chain. -/
def c6Trade : Trade :=
  { symbol := "Z", kind := TradeKind.options, quantity := 1, entry_price := 0,
    stop_loss := 200, take_profit := 150, status := "open", exit_date := none,
    exit_price := none, profit := none, expiration := "E",
    legs := [c6Leg1, c6Leg2] }

/-- A chain quoting only the short leg of `c6Trade`. -/
def c6Chain : List OptionRow :=
  [{ strike := 105, optionType := "CALL", expiration := "E", lastPrice := 2 }]

/-- The record the cycle produces for `c6Trade`: force-closed on the partial
value 500. -/
def c6Closed : Trade :=
  { symbol := "Z", kind := TradeKind.options, quantity := 1, entry_price := 0,
    stop_loss := 200, take_profit := 150, status := "closed",
    exit_date := some "d", exit_price := none, profit := some 500,
    expiration := "E", legs := [c6Leg1, c6Leg2] }

/-- Claim C6 counterexample: with the long leg unquoted, the cycle still values
the structure (the missing leg just contributes 0) and the inflated partial value
forces a close — the position is not left open awaiting the next cycle. -/
theorem c6_counterexample_partial_close :
    legQuote c6Chain c6Trade.expiration c6Leg1 = none ∧
    c6Leg1 ∈ c6Trade.legs ∧
    c6Trade.status = "open" ∧
    monitor_position_step "d" none c6Chain c6Trade = Except.ok c6Closed ∧
    c6Closed.status = "closed" ∧
    c6Closed.profit = some 500 := by
  refine ⟨?_, by simp [c6Trade], rfl, ?_, rfl, rfl⟩ <;>
    (simp [monitor_position_step, legQuote, currentValue, initialValue,
      legContribution, c6Trade, c6Chain, c6Closed, c6Leg1, c6Leg2, max_loss_pct];
     try norm_num)

/-- Helper: legs without a quote row contribute nothing to `current_value`. -/
theorem currentValue_skips_unquoted (df : List OptionRow) (e : String) :
    ∀ (legs : List Leg) (acc : ℚ),
      legs.foldl (legContribution df e) acc =
        (legs.filter (fun leg => (legQuote df e leg).isSome)).foldl
          (legContribution df e) acc := by
  intro legs
  induction legs with
  | nil => intro acc; rfl
  | cons leg rest ih =>
    intro acc
    by_cases hq : (legQuote df e leg).isSome
    · rw [List.filter_cons_of_pos (by simpa using hq)]
      simp only [List.foldl_cons]
      exact ih _
    · rw [List.filter_cons_of_neg (by simpa using hq)]
      simp only [List.foldl_cons]
      have hnone : legQuote df e leg = none := by
        cases hqq : legQuote df e leg with
        | none => rfl
        | some r => rw [hqq] at hq; simp at hq
      have hskip : legContribution df e acc leg = acc := by
        unfold legContribution
        rw [hnone]
      rw [hskip]
      exact ih _

/-- Claim C6, amended: an entirely empty chain skips the valuation and leaves the
open options position unchanged; otherwise every leg without a quote contributes
zero to the cycle value (the valuation is not marked unavailable), the exit
conditions are evaluated against this partially-priced value, and only when they
do not fire is the position left open for the next cycle. -/
theorem c6_amended_partial_valuation :
    (∀ (now : String) (cp : Option ℚ) (t : Trade),
      t.status = "open" → t.kind = TradeKind.options →
      monitor_position_step now cp [] t = Except.ok t) ∧
    (∀ (df : List OptionRow) (e : String) (legs : List Leg),
      currentValue df e legs =
        currentValue df e (legs.filter (fun leg => (legQuote df e leg).isSome))) ∧
    (∀ (now : String) (cp : Option ℚ) (df : List OptionRow) (t : Trade),
      t.status = "open" → t.kind = TradeKind.options → df ≠ [] →
      ¬(currentValue df t.expiration t.legs - initialValue t.legs ≤ -t.stop_loss ∨
        t.take_profit ≤
          currentValue df t.expiration t.legs - initialValue t.legs) →
      monitor_position_step now cp df t = Except.ok t) := by
  refine ⟨?_, ?_, ?_⟩
  · intro now cp t hopen hkind
    simp [monitor_position_step, hopen, hkind]
  · intro df e legs
    exact currentValue_skips_unquoted df e legs 0
  · intro now cp df t hopen hkind hne hcond
    simp only [monitor_position_step, hopen, hkind, and_true, if_true,
      List.isEmpty_eq_true, hne, if_false]
    split_ifs <;> simp_all

/-- Witness for C6: an empty chain leaves the open position untouched. -/
theorem c6_amended_partial_valuation_witness :
    monitor_position_step "d" none [] c6Trade = Except.ok c6Trade :=
  c6_amended_partial_valuation.1 "d" none c6Trade rfl rfl

/-- Helper: erasing the position `find?` located removes exactly its reserved
cost from the open-position total. -/
theorem sumReserved_eraseP {pred : LedgerPos → Bool} :
    ∀ {l : List LedgerPos} {p : LedgerPos}, l.find? pred = some p →
      sumReserved (l.eraseP pred) = sumReserved l - reserveCost p := by
  intro l
  induction l with
  | nil => intro p h; simp at h
  | cons x xs ih =>
    intro p h
    by_cases hx : pred x
    · rw [List.find?_cons_of_pos _ hx] at h
      rw [List.eraseP_cons_of_pos hx]
      obtain rfl : x = p := by injection h
      simp only [sumReserved, List.map_cons, List.sum_cons]
      ring
    · rw [List.find?_cons_of_neg _ hx] at h
      rw [List.eraseP_cons_of_neg hx]
      simp only [sumReserved, List.map_cons, List.sum_cons]
      have := ih h
      simp only [sumReserved] at this
      rw [this]
      ring

/-- Helper: each ledger transition preserves the corrected conservation
identity. -/
theorem ledgerStep_books (baseline : ℚ) (L : Ledger) (e : LedgerEvent)
    (h : L.available + sumReserved L.openPositions =
      baseline + sumRealized L.closedPositions -
        sumClosedOptionsMaxLoss L.closedPositions) :
    (ledgerStep L e).available + sumReserved (ledgerStep L e).openPositions =
      baseline + sumRealized (ledgerStep L e).closedPositions -
        sumClosedOptionsMaxLoss (ledgerStep L e).closedPositions := by
  cases e with
  | admitPos p =>
    simp only [ledgerStep]
    split_ifs
    · exact h
    · exact h
    · simp only [sumReserved, List.map_cons, List.sum_cons]
      simp only [sumReserved] at h
      linarith
  | close sym exitVal =>
    simp only [ledgerStep]
    cases hf : L.openPositions.find? (fun q => q.symbol == sym) with
    | none => exact h
    | some p =>
      simp only [sumRealized, sumClosedOptionsMaxLoss, List.map_cons,
        List.sum_cons]
      rw [sumReserved_eraseP hf]
      simp only [sumRealized, sumClosedOptionsMaxLoss] at h
      cases hk : p.kind with
      | equity =>
        simp only [hk, reserveCost]
        linear_combination h
      | options =>
        simp only [hk, reserveCost]
        linear_combination h
  | recalcMaxSize m => exact h

/-- Helper: the corrected identity propagates through any event sequence. -/
theorem runLedger_books (baseline : ℚ) :
    ∀ (events : List LedgerEvent) (L : Ledger),
      L.available + sumReserved L.openPositions =
        baseline + sumRealized L.closedPositions -
          sumClosedOptionsMaxLoss L.closedPositions →
      (runLedger L events).available +
          sumReserved (runLedger L events).openPositions =
        baseline + sumRealized (runLedger L events).closedPositions -
          sumClosedOptionsMaxLoss (runLedger L events).closedPositions := by
  intro events
  induction events with
  | nil => intro L h; exact h
  | cons e rest ih =>
    intro L h
    exact ih (ledgerStep L e) (ledgerStep_books baseline L e h)

/-- An options admission whose margin dwarfs the pool. -/
def c1BigOptions : LedgerPos :=
  { symbol := "A", kind := TradeKind.options, entry_price := 0, quantity := 0,
    max_loss := 200000 }

/-- A modest options admission, later closed with profit 100. -/
def c1SmallOptions : LedgerPos :=
  { symbol := "A", kind := TradeKind.options, entry_price := 0, quantity := 0,
    max_loss := 1000 }

/-- Claim C1 counterexample: the admission check compares `available_capital`
with `max_position_size`, never with the actual cost of the trade, so one admissible
options trade with `max_loss` 200000 drives a 100000 ledger to −100000 (the
claimed `available_capital ≥ 0` fails); and after admitting and closing an
options trade (margin 1000, profit 100) the claimed identity
`available + Σ reserved = baseline + Σ profit` fails, because the close releases
only the profit and never returns the reserved margin. -/
theorem c1_counterexample_capital_invariant :
    (runLedger (initLedger 100000) [LedgerEvent.admitPos c1BigOptions]).available =
      -100000 ∧
    (runLedger (initLedger 100000) [LedgerEvent.admitPos c1BigOptions]).available < 0 ∧
    ((runLedger (initLedger 100000)
        [LedgerEvent.admitPos c1SmallOptions, LedgerEvent.close "A" 100]).available +
      sumReserved (runLedger (initLedger 100000)
        [LedgerEvent.admitPos c1SmallOptions,
         LedgerEvent.close "A" 100]).openPositions ≠
      100000 +
        sumRealized (runLedger (initLedger 100000)
          [LedgerEvent.admitPos c1SmallOptions,
           LedgerEvent.close "A" 100]).closedPositions) := by
  refine ⟨?_, ?_, ?_⟩ <;>
    (simp [runLedger, ledgerStep, initLedger, reserveCost, sumReserved,
      sumRealized, c1BigOptions, c1SmallOptions]; try norm_num)

/-- Claim C1, amended: for every admissible sequence of admissions and closes
the ledger satisfies the corrected identity
`available + Σ(reserved by open) = initial capital + Σ(realized profit)
− Σ(max_loss of closed options positions)`; the as-claimed identity and the
non-negativity of `available_capital` do not hold (see the counterexample),
since closing an options position releases its profit but never the reserved
margin, and admission never compares the cost against available capital. -/
theorem c1_amended_capital_conservation :
    ∀ (initial_capital : ℚ) (events : List LedgerEvent),
      (runLedger (initLedger initial_capital) events).available +
        sumReserved (runLedger (initLedger initial_capital) events).openPositions =
      initial_capital +
        sumRealized (runLedger (initLedger initial_capital) events).closedPositions -
        sumClosedOptionsMaxLoss
          (runLedger (initLedger initial_capital) events).closedPositions := by
  intro c events
  refine runLedger_books c events (initLedger c) ?_
  simp [initLedger, sumReserved, sumRealized, sumClosedOptionsMaxLoss]

/-- A trending-bullish, non-volatile snapshot (RSI 50, uptrend, near support). -/
def c8Tech : Signals :=
  { price := some 100, rsi := some 50, oversold := false, overbought := false,
    uptrend := true, support := some 99, resistance := some 120,
    near_support := true, near_resistance := false,
    sma_20 := some 101, sma_50 := some 100 }

/-- A bullish options-flow snapshot for the strategy selector. -/
def c8Flow : OptionsSignals :=
  { bullish_flow := true, strong_flow := true, put_call_ratio := 1 / 2,
    high_activity := true }

/-- A volatile snapshot (RSI 20) for the butterfly branch. -/
def c8VolTech : Signals :=
  { price := some 100, rsi := some 20, oversold := true, overbought := false,
    uptrend := false, support := some 99, resistance := some 120,
    near_support := false, near_resistance := false,
    sma_20 := some 101, sma_50 := some 100 }

/-- A chain whose strikes land in the ±5% band but which quotes only puts: the
bull-call branch finds two candidate strikes yet no CALL quote row. -/
def c8Chain : List OptionRow :=
  [{ strike := 98, optionType := "PUT", expiration := "E", lastPrice := 1 },
   { strike := 102, optionType := "PUT", expiration := "E", lastPrice := 2 }]

/-- Claim C8 counterexample: when the selected bull-call branch fails because a
required quote row is missing (two candidate strikes, no CALL rows), the call
raises an uncaught IndexError instead of returning `None`. -/
theorem c8_counterexample_missing_quote_raises :
    select_best_strategy ["E"] 100 c8Tech c8Flow c8Chain =
      Except.error "IndexError: single positional indexer is out-of-bounds" ∧
    select_best_strategy ["E"] 100 c8Tech c8Flow c8Chain ≠ Except.ok none := by
  have h1 : select_best_strategy ["E"] 100 c8Tech c8Flow c8Chain =
      Except.error "IndexError: single positional indexer is out-of-bounds" := by
    norm_num [select_best_strategy, pyGet, c8Tech, c8Flow, c8Chain,
      create_vertical_spread, find_strike_prices, ilocFirst, List.insertionSort,
      List.orderedInsert, List.filter, List.dedup,
      decide_eq_false (show ¬("PUT" : String) = "CALL" by simp)]
  refine ⟨h1, ?_⟩
  rw [h1]
  exact fun hc => Except.noConfusion hc

/-- Wrap a vertical-spread construction outcome as a selection outcome. -/
def liftVertical (x : Except String (Option VerticalSpread)) :
    Except String (Option Plan) :=
  match x with
  | Except.error e => Except.error e
  | Except.ok none => Except.ok none
  | Except.ok (some v) => Except.ok (some (Plan.vertical v))

/-- Wrap a butterfly construction outcome as a selection outcome. -/
def liftButterfly (x : Except String (Option Butterfly)) :
    Except String (Option Plan) :=
  match x with
  | Except.error e => Except.error e
  | Except.ok none => Except.ok none
  | Except.ok (some b) => Except.ok (some (Plan.butterfly b))

/-- Wrap an iron-condor construction outcome as a selection outcome. -/
def liftCondor (x : Except String (Option IronCondor)) :
    Except String (Option Plan) :=
  match x with
  | Except.error e => Except.error e
  | Except.ok none => Except.ok none
  | Except.ok (some c) => Except.ok (some (Plan.condor c))

/-- Claim C8, amended: the four regimes are evaluated in fixed priority order
(bullish-and-not-volatile, bearish-and-not-volatile, volatile, not-trending),
the first matching regime is the only one whose structure is built, and the
selection outcome is exactly the outcome of that single construction — `None` with no
fallback when the branch returns `None` for insufficient strikes, but an
uncaught IndexError (not `None`) when the branch dies on a missing quote row. -/
theorem c8_amended_regime_dispatch :
    ∀ (e : String) (rest : List String) (cp r : ℚ) (tech : Signals)
      (flow : OptionsSignals) (chain : List OptionRow),
      tech.rsi = some r →
      ((tech.uptrend && tech.near_support && flow.bullish_flow) = true →
        (decide (70 < r) || decide (r < 30)) = false →
        select_best_strategy (e :: rest) cp tech flow chain =
          liftVertical (create_vertical_spread "bull_call" e cp chain)) ∧
      ((tech.uptrend && tech.near_support && flow.bullish_flow) = false →
        (!tech.uptrend && tech.near_resistance && !flow.bullish_flow) = true →
        (decide (70 < r) || decide (r < 30)) = false →
        select_best_strategy (e :: rest) cp tech flow chain =
          liftVertical (create_vertical_spread "bear_put" e cp chain)) ∧
      ((decide (70 < r) || decide (r < 30)) = true →
        select_best_strategy (e :: rest) cp tech flow chain =
          liftButterfly (create_butterfly e cp chain)) ∧
      ((tech.uptrend && tech.near_support && flow.bullish_flow) = false →
        (!tech.uptrend && tech.near_resistance && !flow.bullish_flow) = false →
        (decide (70 < r) || decide (r < 30)) = false →
        (tech.uptrend || tech.near_support || tech.near_resistance) = false →
        select_best_strategy (e :: rest) cp tech flow chain =
          liftCondor (create_iron_condor e cp chain)) ∧
      ((tech.uptrend && tech.near_support && flow.bullish_flow) = false →
        (!tech.uptrend && tech.near_resistance && !flow.bullish_flow) = false →
        (decide (70 < r) || decide (r < 30)) = false →
        (tech.uptrend || tech.near_support || tech.near_resistance) = true →
        select_best_strategy (e :: rest) cp tech flow chain = Except.ok none) ∧
      (select_best_strategy [] cp tech flow chain = Except.ok none) := by
  intro e rest cp r tech flow chain hrsi
  refine ⟨?_, ?_, ?_, ?_, ?_, rfl⟩
  · intro hbull hvol
    simp only [select_best_strategy, hrsi, pyGet, hbull, hvol, Bool.not_false,
      Bool.and_true, Bool.true_and, if_true]
    cases hc : create_vertical_spread "bull_call" e cp chain with
    | error err => simp [liftVertical]
    | ok s =>
      cases s with
      | none => simp [liftVertical]
      | some v => simp [liftVertical, pyMax]
  · intro hbull hbear hvol
    simp only [select_best_strategy, hrsi, pyGet, hbull, hbear, hvol,
      Bool.not_false, Bool.and_true, Bool.true_and, Bool.false_and,
      Bool.and_false, if_true, if_false, Bool.false_eq_true]
    cases hc : create_vertical_spread "bear_put" e cp chain with
    | error err => simp [liftVertical]
    | ok s =>
      cases s with
      | none => simp [liftVertical]
      | some v => simp [liftVertical, pyMax]
  · intro hvol
    simp only [select_best_strategy, hrsi, pyGet, hvol, Bool.not_true,
      Bool.and_false, if_false, if_true, Bool.false_eq_true]
    cases hc : create_butterfly e cp chain with
    | error err => simp [liftButterfly]
    | ok s =>
      cases s with
      | none => simp [liftButterfly]
      | some b => simp [liftButterfly, pyMax]
  · intro hbull hbear hvol htrend
    simp only [select_best_strategy, hrsi, pyGet, hbull, hbear, hvol, htrend,
      Bool.not_false, Bool.and_true, Bool.true_and, Bool.false_and,
      Bool.and_false, if_true, if_false, Bool.false_eq_true, Bool.not_true]
    cases hc : create_iron_condor e cp chain with
    | error err => simp [liftCondor]
    | ok s =>
      cases s with
      | none => simp [liftCondor]
      | some c => simp [liftCondor, pyMax]
  · intro hbull hbear hvol htrend
    simp only [select_best_strategy, hrsi, pyGet, hbull, hbear, hvol, htrend,
      Bool.not_false, Bool.and_true, Bool.true_and, Bool.false_and,
      Bool.and_false, if_true, if_false, Bool.false_eq_true, Bool.not_true]

/-- Witness for C8 at a volatile snapshot with an empty chain (the butterfly
branch is selected and its `None` propagates with no fallback). -/
theorem c8_amended_regime_dispatch_witness :
    select_best_strategy ["E"] 100 c8VolTech c8Flow [] =
      liftButterfly (create_butterfly "E" 100 []) :=
  (c8_amended_regime_dispatch "E" [] 100 20 c8VolTech c8Flow [] rfl).2.2.1
    (by norm_num)

end StockTrading
